import Mathlib

/-!
Verification development for the instruction-transformation and
conversational-state engine of the Assist-chan-2026 repository.

The repository contains several iterations of the same React application.
The embedded definitions are named after the variant they come from:

* `handleModifyInstructions0`, `handleEcoSwitch0`, `handleToggleStep`
  come from the App component in src/unnamed/part_000;
* `handleFetchInstructions1`, `handleModifyInstructions1`
  come from the App component in src/unnamed/part_001;
* `speak2`, `handleModifyInstructions2`
  come from the App component in src/unnamed/part_002;
* `onSpeechError4` comes from the ChatInterface in src/unnamed/part_004;
* `onSpeechError5` comes from the ChatInterface in src/unnamed/part_005;
* `modifyInstructionsG`, `getSustainableSuggestionG`
  come from src/services/geminiService.ts;
* `getSustainableSuggestion6` comes from the service file in src/unnamed/part_006;
* `modifyInstructions7` comes from the service file in src/unnamed/part_007;
* `ecoButtonDisabled`, `showEcoButton` come from src/components/RecipeDisplay.tsx.

Modelling conventions:

* Asynchronous Gemini-capability calls are modelled by passing the resolved
  result of the call as an explicit `Except String _` argument (the `error`
  case is a thrown or rejected promise carrying its message).
* React `useState` state is modelled by the explicit record `AppState`;
  an event handler is a function from the pre-call state (plus the
  capability result and the original handler arguments) to the post-call
  state.  A `setX(true)` followed in the same handler by a `finally`
  branch `setX(false)` nets out to `false` in the post-call state.
* Audio and console side effects are not part of `AppState`; narration is
  modelled separately by `speak2` returning a `SpeakEffect` record.
* JavaScript string `toLowerCase` is modelled on the ASCII range (all
  hard-coded keywords in the source are ASCII).
* JavaScript sparse-array writes (`arr[i] = v` with `i` at or beyond
  `arr.length`) create holes; every read of `completedSteps` in the source
  treats a hole (`undefined`) as falsy, so holes are modelled as `false`.
-/

/-- Embeds the element type of the optional `sources` field of
`InstructionSet` in src/unnamed/part_003. -/
structure Source where
  uri : String
  title : String
deriving DecidableEq

/-- Embeds the `InstructionSet` interface of src/unnamed/part_003 (the
variant with the sustainability fields; the other variant in the same file
is the subset without the optional metadata). -/
structure InstructionSet where
  title : String
  materials : List String
  steps : List String
  sources : Option (List Source) := none
  sustainabilitySuggestion : Option String := none
  isFood : Option Bool := none
  hasAnimalProducts : Option Bool := none
deriving DecidableEq

/-- Embeds the `Role` enum of src/unnamed/part_003. -/
inductive Role where
  | user
  | assistant
deriving DecidableEq

/-- Embeds the `ChatMessage` interface of src/unnamed/part_003. -/
structure ChatMessage where
  role : Role
  content : String
deriving DecidableEq

/-- JavaScript `String.prototype.toLowerCase`, modelled on ASCII. -/
def jsToLower (s : String) : String :=
  String.mk (s.data.map Char.toLower)

/-- Helper for `jsIncludes`: substring occurrence test on character lists. -/
def containsSub (hay needle : List Char) : Bool :=
  if needle.isPrefixOf hay then true
  else
    match hay with
    | [] => false
    | _ :: t => containsSub t needle

/-- JavaScript `String.prototype.includes`. -/
def jsIncludes (s sub : String) : Bool :=
  containsSub s.data sub.data

/-- JavaScript truthiness of an optional string (`undefined` and the empty
string are falsy). -/
def jsTruthyStr : Option String → Bool
  | some s => s != ""
  | none => false

/-- JavaScript `a ?? b` (nullish coalescing) on optional values. -/
def jsCoalesce {α : Type} (a b : Option α) : Option α :=
  match a with
  | some v => some v
  | none => b

/-- JavaScript `a || b` for an optional string `a` with string fallback
`b` (an empty string falls through to the fallback). -/
def jsOrElseStr (a : Option String) (b : String) : String :=
  match a with
  | some s => if s = "" then b else s
  | none => b

/-- An apostrophe character, used in message texts of the source. -/
def apostrophe : String := String.singleton (Char.ofNat 39)

/-- JavaScript `String.prototype.trim`, modelled on ASCII whitespace. -/
def jsTrim (s : String) : String :=
  String.mk (((s.data.dropWhile Char.isWhitespace).reverse.dropWhile
    Char.isWhitespace).reverse)

/-- Embeds `modifyInstructions` from src/services/geminiService.ts
(lines 56-109).  `response` is the resolved Gemini call with its JSON
already parsed into an `InstructionSet`; a missing or empty title is the
falsy `!parsed.title` check (the `materials` and `steps` array checks hold
by typing).  A validation failure is thrown inside the `try` block and
re-wrapped by the `catch` block like any other error.  Lines 96-101 copy
`sources` from the prior document whenever the prior document has them
(a present array is always truthy in JavaScript). -/
def modifyInstructionsG (instructions : InstructionSet)
    (response : Except String InstructionSet) : Except String InstructionSet :=
  match response with
  | .error m => .error ("Could not modify instructions. " ++ m)
  | .ok parsed =>
    if parsed.title = "" then
      .error "Could not modify instructions. Invalid instruction structure in API response."
    else
      .ok { parsed with
        sources := if instructions.sources.isSome then instructions.sources
                   else parsed.sources }

/-- Embeds `modifyInstructions` from the service variant in
src/unnamed/part_007 (lines 49-71).  This variant performs no structural
validation; it unconditionally carries `isFood` forward, carries `sources`
forward when present, and carries `sustainabilitySuggestion` forward when
truthy (a non-empty string). -/
def modifyInstructions7 (instructions : InstructionSet)
    (response : Except String InstructionSet) : Except String InstructionSet :=
  match response with
  | .error _ => .error "Update failed."
  | .ok parsed =>
    .ok { parsed with
      isFood := instructions.isFood,
      sources := if instructions.sources.isSome then instructions.sources
                 else parsed.sources,
      sustainabilitySuggestion :=
        if jsTruthyStr instructions.sustainabilitySuggestion then
          instructions.sustainabilitySuggestion
        else parsed.sustainabilitySuggestion }

/-- The hard-coded `meatFishKeywords` list of `getSustainableSuggestion`
in src/services/geminiService.ts (line 112). -/
def meatFishKeywords : List String :=
  ["chicken", "beef", "pork", "lamb", "turkey", "fish", "salmon", "tuna",
   "shrimp", "cod", "veal", "mutton"]

/-- The hard-coded `meatFishKeywords` list of `getSustainableSuggestion`
in the service variant of src/unnamed/part_006 (line 158). -/
def animalProductKeywords6 : List String :=
  ["chicken", "beef", "pork", "lamb", "turkey", "fish", "salmon", "tuna",
   "shrimp", "cod", "veal", "mutton", "ground meat", "steak", "bacon", "ham",
   "egg", "cheese", "milk", "cream", "butter"]

/-- The keyword gate shared by both `getSustainableSuggestion` variants:
`materials.some(material => keywords.some(k => material.toLowerCase().includes(k)))`. -/
def materialsMatchKeywords (keywords materials : List String) : Bool :=
  materials.any fun material =>
    keywords.any fun keyword => jsIncludes (jsToLower material) keyword

/-- The `hasMeatOrFish` gate of src/services/geminiService.ts (lines 114-116). -/
def hasMeatOrFishG (materials : List String) : Bool :=
  materialsMatchKeywords meatFishKeywords materials

/-- The `hasAnimalProducts` gate of the src/unnamed/part_006 service variant
(lines 160-162). -/
def hasAnimalProductsGate6 (materials : List String) : Bool :=
  materialsMatchKeywords animalProductKeywords6 materials

/-- Embeds `getSustainableSuggestion` from src/services/geminiService.ts
(lines 111-134).  The first component of the result records whether the
Gemini generation capability was invoked; the second is the returned
suggestion (`none` is the JavaScript `null`, also produced when the
capability call fails). -/
def getSustainableSuggestionG (title : String) (materials : List String)
    (capabilityResponse : Except String String) : Bool × Option String :=
  if hasMeatOrFishG materials = false then (false, none)
  else
    (true,
      match capabilityResponse with
      | .ok text => some ("**Sustainability Suggestion:** " ++ jsTrim text)
      | .error _ => none)

/-- Embeds `getSustainableSuggestion` from the service variant in
src/unnamed/part_006 (lines 157-180), which uses the extended keyword list
and returns the trimmed capability text without a prefix. -/
def getSustainableSuggestion6 (title : String) (materials : List String)
    (capabilityResponse : Except String String) : Bool × Option String :=
  if hasAnimalProductsGate6 materials = false then (false, none)
  else
    (true,
      match capabilityResponse with
      | .ok text => some (jsTrim text)
      | .error _ => none)

/-- The React `useState` state of the App components
(src/unnamed/part_000 lines 14-25, part_001 lines 14-24, part_002
lines 14-25).  The `hasPrimed` flag of the speech-priming hack is not
modelled (no claim depends on it). -/
structure AppState where
  instructionSet : Option InstructionSet
  isLoading : Bool
  isAnswering : Bool
  isModifying : Bool
  isEcoApplied : Bool
  error : Option String
  chatHistory : List ChatMessage
  isMuted : Bool
  completedSteps : List Bool
  isContinuousListening : Bool
  isReadingInstructions : Bool
deriving DecidableEq

/-- Embeds `handleFetchInstructions` from src/unnamed/part_001
(lines 47-101).  `extractResult` is the resolved
`extractInstructionsFromUrl` call; `suggestion` is the resolved
`getSustainableSuggestion` call (only reached on successful extraction,
unused otherwise).  The handler first resets the document, chat,
completion flags and eco status, then on success installs the extracted
document (with the suggestion attached when truthy), an all-false
completion array sized to the new steps, and the welcome chat; on failure
it sets the error banner.  `setIsLoading(true)` plus the `finally`
branch nets `isLoading := false`. -/
def handleFetchInstructions1 (s : AppState) (url : String)
    (extractResult : Except String InstructionSet)
    (suggestion : Option String) : AppState :=
  if url = "" then { s with error := some "Please enter a valid URL." }
  else
    let s1 : AppState :=
      { s with
        isLoading := false, error := none, instructionSet := none,
        chatHistory := [], completedSteps := [], isEcoApplied := false,
        isReadingInstructions := false }
    match extractResult with
    | .error m => { s1 with error := some ("Failed to process instructions. " ++ m) }
    | .ok extracted0 =>
      let extracted :=
        if jsTruthyStr suggestion then
          { extracted0 with sustainabilitySuggestion := suggestion }
        else extracted0
      let welcomeMessage : ChatMessage :=
        { role := Role.assistant,
          content := "I have loaded the instructions for **" ++ extracted0.title ++
            "**. How can I help? You can ask me to scale it, convert units, or clarify steps." }
      let initialChat : List ChatMessage :=
        if jsTruthyStr suggestion then
          [welcomeMessage,
           { role := Role.assistant,
             content := "**Sustainability Suggestion:** " ++ jsOrElseStr suggestion "" }]
        else [welcomeMessage]
      { s1 with
        instructionSet := some extracted,
        completedSteps := List.replicate extracted.steps.length false,
        chatHistory := initialChat }

/-- Embeds `handleModifyInstructions` from src/unnamed/part_000
(lines 125-156).  `result` is the resolved `modifyInstructions` service
call.  On eco switches the suggestion is removed from the new document and
eco status is set; in all success cases the document is replaced, the
completion flags are reset to all-false at the new length, and a
confirmation chat message (phrased with the pre-call `isEcoApplied`
closure value) is appended.  On failure only the error banner is set. -/
def handleModifyInstructions0 (s : AppState) (isEcoSwitch : Bool)
    (result : Except String InstructionSet) : AppState :=
  match s.instructionSet with
  | none => s
  | some _ =>
    let s1 : AppState := { s with error := none, isModifying := false }
    match result with
    | .error _ => { s1 with error := some "Error updating instructions." }
    | .ok newInstructionSet0 =>
      let newInstructionSet :=
        if isEcoSwitch then
          { newInstructionSet0 with sustainabilitySuggestion := none }
        else newInstructionSet0
      { s1 with
        instructionSet := some newInstructionSet,
        completedSteps := List.replicate newInstructionSet.steps.length false,
        isEcoApplied := isEcoSwitch || s.isEcoApplied,
        chatHistory := s.chatHistory ++
          [{ role := Role.assistant,
             content := "Recipe updated. You can see the new " ++
               (if s.isEcoApplied then "vegan " else "") ++ "instructions above." }] }

/-- The success-path confirmation message of `handleModifyInstructions`
in src/unnamed/part_001 (line 126). -/
def confirmationMessage1 : String :=
  "I" ++ apostrophe ++
    "ve fully updated the recipe to be plant-based and sustainable. You can see the new ingredients and steps above."

/-- Embeds `handleModifyInstructions` from src/unnamed/part_001
(lines 103-140).  Besides the explicit `isEcoSwitch` flag, the success
path also treats a prompt mentioning a sustainable alternative (or
containing the current truthy suggestion text) as an eco switch.  On
failure this variant both sets the error banner and appends an
assistant-role error message to the chat history. -/
def handleModifyInstructions1 (s : AppState) (prompt : String)
    (isEcoSwitch : Bool) (result : Except String InstructionSet) : AppState :=
  match s.instructionSet with
  | none => s
  | some doc =>
    let s1 : AppState := { s with error := none, isModifying := false }
    match result with
    | .error m =>
      { s1 with
        error := some ("Failed to modify instructions. " ++ m),
        chatHistory := s.chatHistory ++
          [{ role := Role.assistant,
             content := "Sorry, I encountered an error while updating: " ++ m }] }
    | .ok newInstructionSet0 =>
      let ecoLike := isEcoSwitch ||
        (jsIncludes (jsToLower prompt) "sustainable alternative" ||
          (jsTruthyStr doc.sustainabilitySuggestion &&
            jsIncludes prompt (jsOrElseStr doc.sustainabilitySuggestion "")))
      let newInstructionSet :=
        if ecoLike then
          { newInstructionSet0 with sustainabilitySuggestion := none }
        else newInstructionSet0
      { s1 with
        instructionSet := some newInstructionSet,
        completedSteps := List.replicate newInstructionSet0.steps.length false,
        isEcoApplied := ecoLike || s.isEcoApplied,
        chatHistory := s.chatHistory ++
          [{ role := Role.assistant, content := confirmationMessage1 }] }

/-- Embeds `handleModifyInstructions` from src/unnamed/part_002
(lines 98-125).  This variant cancels narration up front
(`isReadingInstructions := false`), never touches the error banner on
entry, forces `hasAnimalProducts := false` on eco switches and otherwise
carries the prior value through `??`, and on failure only sets the error
banner (no chat append). -/
def handleModifyInstructions2 (s : AppState) (isEcoSwitch : Bool)
    (customChatMsg : Option String)
    (result : Except String InstructionSet) : AppState :=
  match s.instructionSet with
  | none => s
  | some doc =>
    let s1 : AppState := { s with isReadingInstructions := false, isModifying := false }
    match result with
    | .error _ => { s1 with error := some "Update failed." }
    | .ok updated0 =>
      let updated :=
        if isEcoSwitch then { updated0 with hasAnimalProducts := some false }
        else { updated0 with
               hasAnimalProducts := jsCoalesce updated0.hasAnimalProducts doc.hasAnimalProducts }
      let chatMsg := jsOrElseStr customChatMsg "I have updated the recipe for you."
      { s1 with
        instructionSet := some updated,
        completedSteps := List.replicate updated.steps.length false,
        isEcoApplied := isEcoSwitch || s.isEcoApplied,
        chatHistory := s.chatHistory ++
          [{ role := Role.assistant, content := chatMsg }] }

/-- The eco-switch prompt template of `handleEcoSwitch` in
src/unnamed/part_000 (lines 161-165). -/
def ecoPrompt0 (doc : InstructionSet) : String :=
  "REGENERATE THE ENTIRE RECIPE. \n        MANDATORY: Remove ALL animal-based products (meat, fish, eggs, dairy, honey). \n        REPLACE: Use sustainable plant-based alternatives. \n        UPDATE MATERIALS AND STEPS COMPLETELY.\n        GUIDANCE: " ++
    jsOrElseStr doc.sustainabilitySuggestion "Transform this into a vegan version."

/-- Embeds the guard of `handleEcoSwitch` in src/unnamed/part_000
(lines 158-168): the result is the prompt sent to the transformation
engine, or `none` when the guard `isEcoApplied or no document` returns
early (no capability call, no state change). -/
def handleEcoSwitch0 (s : AppState) : Option String :=
  match s.instructionSet with
  | none => none
  | some doc => if s.isEcoApplied then none else some (ecoPrompt0 doc)

/-- The full eco-switch transition of src/unnamed/part_000: when the guard
passes, the handler delegates to `handleModifyInstructions(prompt, true)`. -/
def ecoSwitchStep0 (s : AppState)
    (result : Except String InstructionSet) : AppState :=
  match handleEcoSwitch0 s with
  | none => s
  | some _ => handleModifyInstructions0 s true result

/-- The `disabled` condition of the eco button in
src/components/RecipeDisplay.tsx (line 51). -/
def ecoButtonDisabled (isModifying isEcoApplied : Bool) : Bool :=
  isModifying || isEcoApplied

/-- The `showEcoButton` condition of src/components/RecipeDisplay.tsx
(line 37): `!!instructionSet.isFood`. -/
def showEcoButton (instructionSet : InstructionSet) : Bool :=
  (instructionSet.isFood).getD false

/-- JavaScript array element assignment `arr[i] = v` on a copied
`completedSteps` array: within bounds it overwrites one slot; at or beyond
the length it extends the array to length `i + 1`, with the intermediate
holes reading as `false` (see the modelling conventions above). -/
def jsArrayAssign (arr : List Bool) (index : Nat) (value : Bool) : List Bool :=
  if index < arr.length then arr.set index value
  else arr ++ List.replicate (index - arr.length) false ++ [value]

/-- Embeds `handleToggleStep` from src/unnamed/part_000 (lines 41-47); the
inline `onToggleStep` of src/unnamed/part_002 (lines 212-216) is the same
copy-negate-assign sequence.  `newCompleted[index] = !newCompleted[index]`
negates the read value (`!undefined` is `true` out of bounds). -/
def handleToggleStep (prev : List Bool) (index : Nat) : List Bool :=
  jsArrayAssign prev index (!(prev.getD index false))

/-- The narration effect of one `speak` call: whether the in-flight
utterance was cancelled, the text handed to the synthesiser (`none` means
no narration), whether the completion callback was invoked synchronously,
and whether it was attached to the utterance events. -/
structure SpeakEffect where
  canceledPrior : Bool
  utteranceText : Option String
  onCompleteFiredNow : Bool
  handlersAttached : Bool
deriving DecidableEq

/-- The text cleaning of `speak` in src/unnamed/part_002 (line 44):
`text.replace(/[*#]/g, "")` removes every asterisk and hash. -/
def cleanSpeechText2 (text : String) : String :=
  String.mk (text.data.filter fun c => !(c == '*' || c == '#'))

/-- Embeds `speak` from src/unnamed/part_002 (lines 38-51).  When the
synthesiser is missing or output is muted, the optional `onEnd` callback
fires immediately and nothing is narrated; otherwise the in-flight
utterance is cancelled, the cleaned text is narrated, and `onEnd` (when
given) is attached to both the `onend` and `onerror` events. -/
def speak2 (synthAvailable : Bool) (isMuted : Bool) (text : String)
    (hasOnEnd : Bool) : SpeakEffect :=
  if !synthAvailable || isMuted then
    { canceledPrior := false, utteranceText := none,
      onCompleteFiredNow := hasOnEnd, handlersAttached := false }
  else
    { canceledPrior := true, utteranceText := some (cleanSpeechText2 text),
      onCompleteFiredNow := false, handlersAttached := hasOnEnd }

/-- The speech-input state visible to the claims: the `isContinuousListening`
flag of the App plus whether an underlying recognition session is running.
Recognition events (`onresult`, `onerror`, `onend`) only arrive from a
running session. -/
structure ListenState where
  isContinuousListening : Bool
  recognitionActive : Bool
deriving DecidableEq

/-- The transient error kinds swallowed by `recognition.onerror` in
src/unnamed/part_004 (line 110). -/
def transientSpeechError (errorKind : String) : Bool :=
  errorKind == "no-speech" || errorKind == "aborted"

/-- Embeds `recognition.onerror` from src/unnamed/part_004 (lines 108-115):
`no-speech` and `aborted` return early; every other error calls
`onToggleListening()`, which toggles the listening flag. -/
def onSpeechError4 (st : ListenState) (errorKind : String) : ListenState :=
  if transientSpeechError errorKind then st
  else { st with isContinuousListening := !st.isContinuousListening }

/-- Embeds `recognition.onerror` from src/unnamed/part_005 (lines 109-115):
only the `not-allowed` permission error calls `onToggleListening()`; every
other error is logged and ignored. -/
def onSpeechError5 (st : ListenState) (errorKind : String) : ListenState :=
  if errorKind == "not-allowed" then
    { st with isContinuousListening := !st.isContinuousListening }
  else st

/-- Embeds `recognition.onend` from src/unnamed/part_004 (lines 117-121)
and src/unnamed/part_005 (lines 117-126): the session restarts exactly
when the listening flag is still set. -/
def onSpeechEnd (st : ListenState) : ListenState :=
  { st with recognitionActive := st.isContinuousListening }

/-- Embeds the routing in `recognition.onresult` of src/unnamed/part_004
(lines 96-106) and part_005 (lines 97-107): a finalized transcript is
forwarded to `onSendMessage` when it trims to a non-empty string; events
only arrive while a session is running. -/
def routeRecognizedUtterance (st : ListenState)
    (finalTranscript : String) : Option String :=
  if st.recognitionActive && jsTrim finalTranscript != "" then
    some (jsTrim finalTranscript)
  else none

/-- Total projection of a service result, used to state concrete
corollaries about successful transformations. -/
def exceptDocOr (e : Except String InstructionSet)
    (fallback : InstructionSet) : InstructionSet :=
  match e with
  | .ok d => d
  | .error _ => fallback

/-- A concrete loaded document (the scenario-A recipe of the spec). -/
def demoDoc : InstructionSet :=
  { title := "Soup", materials := ["2 onions"],
    steps := ["chop onions", "fry onions"], isFood := some true }

/-- A concrete app state after loading `demoDoc` and ticking step 0
(the scenario-B starting point). -/
def demoStateB : AppState :=
  { instructionSet := some demoDoc, isLoading := false, isAnswering := false,
    isModifying := false, isEcoApplied := false, error := none,
    chatHistory := [{ role := Role.assistant, content := "Loaded Soup." }],
    isMuted := false, completedSteps := [true, false],
    isContinuousListening := false, isReadingInstructions := false }

/-- A concrete transformation response with a single step. -/
def demoNewDoc : InstructionSet :=
  { title := "New Soup", materials := ["1 leek"], steps := ["new step"] }

/-- A prior document without attached sources. -/
def c2PriorNoSources : InstructionSet :=
  { title := "Stew", materials := ["1 lb beef"], steps := ["brown the beef"] }

/-- A capability response that happens to carry a sources field of its
own (nothing in the service strips unexpected JSON fields). -/
def c2RespWithSources : InstructionSet :=
  { title := "Lentil Stew", materials := ["2 cups lentils"],
    steps := ["cook the lentils"],
    sources := some [{ uri := "https-example-com", title := "Made Up" }] }

/-- A prior document with attached extraction sources. -/
def c2PriorWithSources : InstructionSet :=
  { title := "Stew", materials := ["1 lb beef"], steps := ["brown the beef"],
    sources := some [{ uri := "https-recipes", title := "Recipes" }],
    isFood := some true }

/-- A prior document for the eco-swap scenario: a food recipe with animal
products and a pending sustainability suggestion. -/
def c4Prior : InstructionSet :=
  { title := "Omelette", materials := ["3 eggs"], steps := ["beat the eggs"],
    sustainabilitySuggestion := some "Swap the eggs for tofu.",
    isFood := some true, hasAnimalProducts := some true }

/-- The app state holding `c4Prior` before the eco swap. -/
def c4State : AppState :=
  { instructionSet := some c4Prior, isLoading := false, isAnswering := false,
    isModifying := false, isEcoApplied := false, error := none,
    chatHistory := [], isMuted := false, completedSteps := [false],
    isContinuousListening := false, isReadingInstructions := false }

/-- An eco-swap capability response that omits the `hasAnimalProducts`
field (the scenario-C response of the spec). -/
def c4Resp : InstructionSet :=
  { title := "Tofu Scramble", materials := ["200g tofu"],
    steps := ["crumble the tofu"] }

/-- The app state used to exercise the guarded eco switch with eco status
already applied. -/
def c5State : AppState :=
  { demoStateB with isEcoApplied := true }

/-- Claim C1: whenever the document steps list is replaced, by a
successful load or by any successful transformation, the completion state
is reset to all-false with length equal to the new steps list; no prior
completion flag survives the replacement.  Stated for the load handler of
part_001 and the transformation handlers of part_000, part_001 and
part_002; in each case the stored document keeps the steps of the
capability response, the completion array is rebuilt as
`List.replicate steps.length false` independently of the prior flags, and
every entry of the rebuilt array is false. -/
theorem c1_completion_reset (s : AppState) (url prompt : String)
    (parsed doc : InstructionSet) (suggestion : Option String)
    (isEcoSwitch : Bool) (customMsg : Option String)
    (hurl : url ≠ "") (hdoc : s.instructionSet = some doc) :
    (handleFetchInstructions1 s url (Except.ok parsed) suggestion).completedSteps
        = List.replicate parsed.steps.length false
    ∧ (handleModifyInstructions0 s isEcoSwitch (Except.ok parsed)).completedSteps
        = List.replicate parsed.steps.length false
    ∧ (handleModifyInstructions1 s prompt isEcoSwitch (Except.ok parsed)).completedSteps
        = List.replicate parsed.steps.length false
    ∧ (handleModifyInstructions2 s isEcoSwitch customMsg (Except.ok parsed)).completedSteps
        = List.replicate parsed.steps.length false
    ∧ (∀ b, b ∈ List.replicate parsed.steps.length false → b = false) := by
  refine ⟨?_, ?_, ?_, ?_, fun b hb => List.eq_of_mem_replicate hb⟩
  · simp only [handleFetchInstructions1, if_neg hurl]
    split <;> rfl
  · simp only [handleModifyInstructions0, hdoc]
    split <;> rfl
  · simp only [handleModifyInstructions1, hdoc]
  · simp only [handleModifyInstructions2, hdoc]
    split <;> rfl

/-- Witness for C1 at the scenario-B input: step 0 is ticked, a
transformation returns a single-step document, and the completion state
comes back as the single-entry all-false array. -/
theorem c1_completion_reset_witness :
    (handleModifyInstructions0 demoStateB false (Except.ok demoNewDoc)).completedSteps
      = List.replicate demoNewDoc.steps.length false :=
  (c1_completion_reset demoStateB "https-example" "double it" demoNewDoc demoDoc
    none false none (by decide) (by rfl)).2.1

/-- Claim C2 counterexample: a successful transformation whose prior
document has no attached sources and whose capability response happens to
carry a sources field.  The service keeps the response sources, so the new
document sources differ from the prior document sources, refuting the
unconditional equality of the claim at this concrete input. -/
theorem c2_sources_counterexample :
    modifyInstructionsG c2PriorNoSources (Except.ok c2RespWithSources)
        = Except.ok c2RespWithSources
    ∧ c2RespWithSources.sources ≠ c2PriorNoSources.sources := by
  constructor
  · rfl
  · decide

/-- Claim C2 (amended): for every successful transformation whose prior
document has sources attached, the new document carries exactly the prior
sources (in both service variants); the part_007 variant additionally
carries the prior `isFood` forward and a truthy prior suggestion forward,
and neither variant drops the title, materials or steps produced by the
capability.  When the prior document has no sources, the response sources
stand as-is. -/
theorem c2_sources_carry (prior parsed : InstructionSet) (srcs : List Source)
    (h : prior.sources = some srcs) :
    (∀ d, modifyInstructionsG prior (Except.ok parsed) = Except.ok d →
      d.sources = some srcs ∧ d.title = parsed.title
        ∧ d.materials = parsed.materials ∧ d.steps = parsed.steps)
    ∧ (∀ d, modifyInstructions7 prior (Except.ok parsed) = Except.ok d →
      d.sources = some srcs ∧ d.isFood = prior.isFood
        ∧ (jsTruthyStr prior.sustainabilitySuggestion = true →
            d.sustainabilitySuggestion = prior.sustainabilitySuggestion)
        ∧ d.title = parsed.title ∧ d.materials = parsed.materials
        ∧ d.steps = parsed.steps) := by
  constructor
  · intro d hd
    simp only [modifyInstructionsG, h] at hd
    split at hd
    · cases hd
    · cases hd
      simp
  · intro d hd
    simp only [modifyInstructions7, h] at hd
    cases hd
    refine ⟨rfl, rfl, fun ht => ?_, rfl, rfl, rfl⟩
    simp [ht]

/-- Witness for C2 (amended): with the extraction sources attached to the
prior document and a capability response carrying its own made-up sources,
the transformed document still exposes exactly the prior sources. -/
theorem c2_sources_carry_witness :
    (exceptDocOr (modifyInstructionsG c2PriorWithSources (Except.ok c2RespWithSources))
        c2RespWithSources).sources
      = some [{ uri := "https-recipes", title := "Recipes" }] :=
  ((c2_sources_carry c2PriorWithSources c2RespWithSources
      [{ uri := "https-recipes", title := "Recipes" }] (by rfl)).1
    _ (by rfl)).1

/-- Claim C3 counterexample: in the part_002 variant a failed
transformation leaves the chat history exactly as it was; no error-kind
assistant message is appended, refuting the append clause of the claim at
this concrete input (the error surfaces only through the error banner). -/
theorem c3_error_append_counterexample :
    (handleModifyInstructions2 demoStateB false none (Except.error "boom")).chatHistory
        = demoStateB.chatHistory
    ∧ ¬ ((handleModifyInstructions2 demoStateB false none (Except.error "boom")).chatHistory.length
        = demoStateB.chatHistory.length + 1)
    ∧ (handleModifyInstructions2 demoStateB false none (Except.error "boom")).error
        = some "Update failed." := by
  refine ⟨rfl, by decide, rfl⟩

/-- Claim C3 (amended): when a transformation attempt fails, the document,
the completion state and the eco status keep exactly their pre-call values
in every variant (no partial mutation).  The part_001 variant additionally
appends an assistant-role error message, distinct by its text from the
confirmation message, to the chat history; the part_000 and part_002
variants leave the chat history unchanged and surface the failure only
through the error banner. -/
theorem c3_failure_frame (s : AppState) (doc : InstructionSet)
    (m prompt : String) (isEcoSwitch : Bool) (customMsg : Option String)
    (hdoc : s.instructionSet = some doc) :
    ((handleModifyInstructions1 s prompt isEcoSwitch (Except.error m)).instructionSet
        = s.instructionSet
      ∧ (handleModifyInstructions1 s prompt isEcoSwitch (Except.error m)).completedSteps
        = s.completedSteps
      ∧ (handleModifyInstructions1 s prompt isEcoSwitch (Except.error m)).isEcoApplied
        = s.isEcoApplied
      ∧ (handleModifyInstructions1 s prompt isEcoSwitch (Except.error m)).chatHistory
        = s.chatHistory ++
          [{ role := Role.assistant,
             content := "Sorry, I encountered an error while updating: " ++ m }]
      ∧ ("Sorry, I encountered an error while updating: " ++ m) ≠ confirmationMessage1)
    ∧ ((handleModifyInstructions0 s isEcoSwitch (Except.error m)).instructionSet
        = s.instructionSet
      ∧ (handleModifyInstructions0 s isEcoSwitch (Except.error m)).completedSteps
        = s.completedSteps
      ∧ (handleModifyInstructions0 s isEcoSwitch (Except.error m)).isEcoApplied
        = s.isEcoApplied
      ∧ (handleModifyInstructions0 s isEcoSwitch (Except.error m)).chatHistory
        = s.chatHistory
      ∧ (handleModifyInstructions0 s isEcoSwitch (Except.error m)).error
        = some "Error updating instructions.")
    ∧ ((handleModifyInstructions2 s isEcoSwitch customMsg (Except.error m)).instructionSet
        = s.instructionSet
      ∧ (handleModifyInstructions2 s isEcoSwitch customMsg (Except.error m)).completedSteps
        = s.completedSteps
      ∧ (handleModifyInstructions2 s isEcoSwitch customMsg (Except.error m)).isEcoApplied
        = s.isEcoApplied
      ∧ (handleModifyInstructions2 s isEcoSwitch customMsg (Except.error m)).chatHistory
        = s.chatHistory
      ∧ (handleModifyInstructions2 s isEcoSwitch customMsg (Except.error m)).error
        = some "Update failed.") := by
  refine ⟨⟨?_, ?_, ?_, ?_, ?_⟩, ⟨?_, ?_, ?_, ?_, ?_⟩, ⟨?_, ?_, ?_, ?_, ?_⟩⟩ <;>
    try simp only [handleModifyInstructions1, handleModifyInstructions0,
      handleModifyInstructions2, hdoc]
  intro hcontra
  have hS : ("Sorry, I encountered an error while updating: " ++ m).data.head?
      = some 'S' := by
    rw [String.data_append]; rfl
  have hI : confirmationMessage1.data.head? = some 'I' := by rfl
  rw [hcontra, hI] at hS
  exact absurd hS (by decide)

/-- Witness for C3 (amended) at a concrete failing call in the part_001
variant: the document is untouched and the error message is appended to
the chat as an assistant message. -/
theorem c3_failure_frame_witness :
    (handleModifyInstructions1 demoStateB "double it" false
        (Except.error "boom")).instructionSet = demoStateB.instructionSet
    ∧ (handleModifyInstructions1 demoStateB "double it" false
        (Except.error "boom")).chatHistory
      = demoStateB.chatHistory ++
        [{ role := Role.assistant,
           content := "Sorry, I encountered an error while updating: " ++ "boom" }] :=
  ⟨(c3_failure_frame demoStateB demoDoc "boom" "double it" false none (by rfl)).1.1,
   (c3_failure_frame demoStateB demoDoc "boom" "double it" false none (by rfl)).1.2.2.2.1⟩

/-- Claim C4 counterexample: in the part_000 variant an eco swap whose
capability response omits `hasAnimalProducts` (routed through the
geminiService.ts `modifyInstructions`) succeeds with eco status set and
the suggestion cleared, yet the stored document still has no
`hasAnimalProducts` value: it is not forced to false as the claim
requires. -/
theorem c4_eco_counterexample :
    ((handleModifyInstructions0 c4State true
        (modifyInstructionsG c4Prior (Except.ok c4Resp))).instructionSet.map
      fun d => d.hasAnimalProducts) = some none
    ∧ ((handleModifyInstructions0 c4State true
        (modifyInstructionsG c4Prior (Except.ok c4Resp))).instructionSet.map
      fun d => d.hasAnimalProducts) ≠ some (some false)
    ∧ (handleModifyInstructions0 c4State true
        (modifyInstructionsG c4Prior (Except.ok c4Resp))).isEcoApplied = true := by
  refine ⟨by rfl, by decide, by rfl⟩

/-- Claim C4 (amended): the eco-swap effects are split across the two App
variants.  In part_000 a successful eco swap sets eco status and clears
`sustainabilitySuggestion` but leaves `hasAnimalProducts` exactly as the
capability returned it.  In part_002 a successful eco swap sets eco status
and forces `hasAnimalProducts := false` but keeps the response
`sustainabilitySuggestion` (which the part_007 service carries forward
from the prior document whenever the prior one is non-empty). -/
theorem c4_eco_effects (s : AppState) (doc parsed : InstructionSet)
    (customMsg : Option String) (hdoc : s.instructionSet = some doc) :
    ((handleModifyInstructions0 s true (Except.ok parsed)).isEcoApplied = true
      ∧ (handleModifyInstructions0 s true (Except.ok parsed)).instructionSet
        = some { parsed with sustainabilitySuggestion := none })
    ∧ ((handleModifyInstructions2 s true customMsg (Except.ok parsed)).isEcoApplied = true
      ∧ (handleModifyInstructions2 s true customMsg (Except.ok parsed)).instructionSet
        = some { parsed with hasAnimalProducts := some false })
    ∧ (∀ sg, sg ≠ "" → doc.sustainabilitySuggestion = some sg →
        ∀ d, modifyInstructions7 doc (Except.ok parsed) = Except.ok d →
          d.sustainabilitySuggestion = some sg) := by
  refine ⟨⟨?_, ?_⟩, ⟨?_, ?_⟩, ?_⟩
  · simp only [handleModifyInstructions0, hdoc, Bool.true_or]
  · simp [handleModifyInstructions0, hdoc]
  · simp only [handleModifyInstructions2, hdoc, Bool.true_or]
  · simp [handleModifyInstructions2, hdoc]
  · intro sg hsg hdsg d hd
    simp only [modifyInstructions7, hdsg, jsTruthyStr] at hd
    rw [if_pos (bne_iff_ne.mpr hsg)] at hd
    cases hd
    rfl

/-- Witness for C4 (amended) at the concrete eco swap of the omelette
document: part_000 clears the suggestion and sets eco status, part_002
forces `hasAnimalProducts := false`. -/
theorem c4_eco_effects_witness :
    (handleModifyInstructions0 c4State true (Except.ok c4Resp)).instructionSet
      = some { c4Resp with sustainabilitySuggestion := none }
    ∧ (handleModifyInstructions2 c4State true none (Except.ok c4Resp)).instructionSet
      = some { c4Resp with hasAnimalProducts := some false } :=
  ⟨(c4_eco_effects c4State c4Prior c4Resp none (by rfl)).1.2,
   (c4_eco_effects c4State c4Prior c4Resp none (by rfl)).2.1.2⟩

/-- Claim C5: when eco status is already applied, the eco-swap affordance
is inert.  The part_000 guard returns without building a prompt, so no
generation-capability call is made and the state is unchanged whatever the
capability would have answered; and the eco button of RecipeDisplay is
disabled whenever `isEcoApplied` holds, so the affordance cannot be
invoked at all. -/
theorem c5_eco_idempotent (s : AppState)
    (result : Except String InstructionSet) (h : s.isEcoApplied = true) :
    handleEcoSwitch0 s = none
    ∧ ecoSwitchStep0 s result = s
    ∧ (∀ isModifying : Bool, ecoButtonDisabled isModifying s.isEcoApplied = true) := by
  have hguard : handleEcoSwitch0 s = none := by
    cases hIS : s.instructionSet <;> simp [handleEcoSwitch0, hIS, h]
  refine ⟨hguard, ?_, ?_⟩
  · simp [ecoSwitchStep0, hguard]
  · intro isModifying
    simp [ecoButtonDisabled, h]

/-- Witness for C5 at a concrete already-eco state: the guard blocks the
call and the state is untouched even though a transformation result is
available. -/
theorem c5_eco_idempotent_witness :
    handleEcoSwitch0 c5State = none
    ∧ ecoSwitchStep0 c5State (Except.ok demoNewDoc) = c5State :=
  ⟨(c5_eco_idempotent c5State (Except.ok demoNewDoc) (by rfl)).1,
   (c5_eco_idempotent c5State (Except.ok demoNewDoc) (by rfl)).2.1⟩

/-- Claim C7: when speech output is muted, `speak` of part_002 performs no
narration at all (nothing is cancelled, no utterance is handed to the
synthesiser, no handlers are attached) and the given completion callback
is invoked, whatever the text and whether or not the synthesiser exists. -/
theorem c7_muted_speak (synthAvailable : Bool) (text : String) :
    speak2 synthAvailable true text true
      = { canceledPrior := false, utteranceText := none,
          onCompleteFiredNow := true, handlersAttached := false } := by
  simp [speak2]

/-- Witness for C7 at the scenario-E input `speak("x", cb)` under mute. -/
theorem c7_muted_speak_witness :
    speak2 true true "x" true
      = { canceledPrior := false, utteranceText := none,
          onCompleteFiredNow := true, handlersAttached := false } :=
  c7_muted_speak true "x"

/-- Claim C8 counterexample: in the part_005 variant a `network` error is
neither one of the transient kinds nor `not-allowed`, yet listening stays
enabled, the session restarts on end, and a later recognized utterance is
still routed — refuting the clause that every non-transient error stops
listening. -/
theorem c8_error_policy_counterexample :
    (onSpeechError5 { isContinuousListening := true, recognitionActive := true }
        "network").isContinuousListening = true
    ∧ transientSpeechError "network" = false
    ∧ routeRecognizedUtterance
        (onSpeechEnd (onSpeechError5
          { isContinuousListening := true, recognitionActive := true } "network"))
        "hello" = some "hello" := by
  refine ⟨rfl, rfl, by decide⟩

/-- Claim C8 (amended): in the part_004 variant the claim holds as
stated — `no-speech` and `aborted` are swallowed with listening unchanged,
and every other error forces listening off, after which the ended session
does not restart and no utterance is routed.  In the part_005 variant only
the `not-allowed` permission error forces listening off; every other error
leaves the state unchanged. -/
theorem c8_error_policy (st : ListenState) (errorKind transcript : String)
    (hListen : st.isContinuousListening = true) :
    (transientSpeechError errorKind = true → onSpeechError4 st errorKind = st)
    ∧ (transientSpeechError errorKind = false →
        (onSpeechError4 st errorKind).isContinuousListening = false
        ∧ (onSpeechEnd (onSpeechError4 st errorKind)).recognitionActive = false
        ∧ routeRecognizedUtterance (onSpeechEnd (onSpeechError4 st errorKind))
            transcript = none)
    ∧ (onSpeechError5 st "not-allowed").isContinuousListening = false
    ∧ (errorKind ≠ "not-allowed" → onSpeechError5 st errorKind = st) := by
  refine ⟨?_, ?_, ?_, ?_⟩
  · intro ht
    simp [onSpeechError4, ht]
  · intro ht
    refine ⟨?_, ?_, ?_⟩ <;>
      simp [onSpeechError4, onSpeechEnd, routeRecognizedUtterance, ht, hListen]
  · simp [onSpeechError5, hListen]
  · intro hne
    simp [onSpeechError5, hne]

/-- Witness for C8 (amended) at a concrete fatal `audio-capture` error in
the part_004 variant: listening is forced off and the ended session does
not restart. -/
theorem c8_error_policy_witness :
    (onSpeechError4 { isContinuousListening := true, recognitionActive := true }
        "audio-capture").isContinuousListening = false
    ∧ (onSpeechEnd (onSpeechError4
        { isContinuousListening := true, recognitionActive := true }
        "audio-capture")).recognitionActive = false :=
  ⟨((c8_error_policy { isContinuousListening := true, recognitionActive := true }
      "audio-capture" "hi" (by rfl)).2.1 (by decide)).1,
   ((c8_error_policy { isContinuousListening := true, recognitionActive := true }
      "audio-capture" "hi" (by rfl)).2.1 (by decide)).2.1⟩

/-- Claim C9 counterexample: toggling index 2 of the single-entry
completion state is not a no-op — the JavaScript write extends the copied
array to length 3 with the new entry true, so the sequence changes. -/
theorem c9_toggle_counterexample :
    handleToggleStep [false] 2 = [false, false, true]
    ∧ handleToggleStep [false] 2 ≠ [false] := by
  refine ⟨by decide, by decide⟩

/-- Claim C9 (amended): `toggleStepCompletion` is not defensive.  For an
in-bounds index it flips exactly that flag, preserving the length and
every other entry.  For an out-of-bounds index it is not a no-op: the
sequence grows to length `index + 1`, the entry at `index` becomes true
(`!undefined`), the entries below the old length are preserved, and the
padding holes read as false. -/
theorem c9_toggle_behavior (prev : List Bool) (index : Nat) :
    (index < prev.length →
      (handleToggleStep prev index).length = prev.length
      ∧ (handleToggleStep prev index).getD index false = !(prev.getD index false)
      ∧ ∀ j, j ≠ index → (handleToggleStep prev index).getD j false = prev.getD j false)
    ∧ (prev.length ≤ index →
      (handleToggleStep prev index).length = index + 1
      ∧ (handleToggleStep prev index).getD index false = true
      ∧ ∀ j, j < prev.length →
          (handleToggleStep prev index).getD j false = prev.getD j false) := by
  constructor
  · intro hlt
    have hset : handleToggleStep prev index
        = prev.set index (!(prev.getD index false)) := by
      simp [handleToggleStep, jsArrayAssign, hlt]
    refine ⟨by simp [hset], ?_, ?_⟩
    · rw [hset, List.getD_eq_getElem?_getD, List.getElem?_set_eq_of_lt _ hlt,
        Option.getD_some]
    · intro j hj
      rw [hset, List.getD_eq_getElem?_getD,
        List.getElem?_set_ne (fun h => hj h.symm), ← List.getD_eq_getElem?_getD]
  · intro hle
    have hval : (!(prev.getD index false)) = true := by
      rw [List.getD_eq_default _ _ hle]
      rfl
    have hext : handleToggleStep prev index
        = prev ++ (List.replicate (index - prev.length) false ++ [true]) := by
      simp [handleToggleStep, jsArrayAssign, Nat.not_lt.mpr hle, hval,
        List.getElem?_eq_none hle]
    refine ⟨?_, ?_, ?_⟩
    · rw [hext]
      simp only [List.length_append, List.length_replicate, List.length_cons,
        List.length_nil]
      omega
    · rw [hext, List.getD_eq_getElem?_getD, List.getElem?_append_right hle,
        List.getElem?_append_right (by simp)]
      simp
    · intro j hj
      rw [hext, List.getD_eq_getElem?_getD, List.getElem?_append_left hj,
        ← List.getD_eq_getElem?_getD]

/-- Witness for C9 (amended) at the concrete stale-render input of the
counterexample: the out-of-bounds toggle of index 2 over a single-entry
array produces length 3 with entry 2 set true. -/
theorem c9_toggle_behavior_witness :
    (handleToggleStep [false] 2).length = 2 + 1
    ∧ (handleToggleStep [false] 2).getD 2 false = true :=
  ⟨((c9_toggle_behavior [false] 2).2 (by decide)).1,
   ((c9_toggle_behavior [false] 2).2 (by decide)).2.1⟩

/-- Claim C10: both `getSustainableSuggestion` variants return null
without invoking the generation capability whenever no material contains
one of the hard-coded animal-product keywords as a case-insensitive
substring; a suggestion can only be produced when some material matches;
and the capability is invoked exactly when the keyword gate matches. -/
theorem c10_suggestion_gate (title : String) (materials : List String)
    (capabilityResponse : Except String String) :
    (hasMeatOrFishG materials = false →
      getSustainableSuggestionG title materials capabilityResponse = (false, none))
    ∧ (∀ sug, (getSustainableSuggestionG title materials capabilityResponse).2 = some sug →
        hasMeatOrFishG materials = true)
    ∧ (getSustainableSuggestionG title materials capabilityResponse).1
        = hasMeatOrFishG materials
    ∧ (hasAnimalProductsGate6 materials = false →
      getSustainableSuggestion6 title materials capabilityResponse = (false, none))
    ∧ (∀ sug, (getSustainableSuggestion6 title materials capabilityResponse).2 = some sug →
        hasAnimalProductsGate6 materials = true)
    ∧ (getSustainableSuggestion6 title materials capabilityResponse).1
        = hasAnimalProductsGate6 materials := by
  refine ⟨?_, ?_, ?_, ?_, ?_, ?_⟩
  · intro h
    simp [getSustainableSuggestionG, h]
  · intro sug hsug
    by_contra hno
    simp only [Bool.not_eq_true] at hno
    simp [getSustainableSuggestionG, hno] at hsug
  · by_cases h : hasMeatOrFishG materials <;> simp [getSustainableSuggestionG, h]
  · intro h
    simp [getSustainableSuggestion6, h]
  · intro sug hsug
    by_contra hno
    simp only [Bool.not_eq_true] at hno
    simp [getSustainableSuggestion6, hno] at hsug
  · by_cases h : hasAnimalProductsGate6 materials <;>
      simp [getSustainableSuggestion6, h]

/-- Witness for C10 at a concrete all-vegetable materials list: neither
variant invokes the capability and both return null, even though the
capability response was available. -/
theorem c10_suggestion_gate_witness :
    getSustainableSuggestionG "Vegetable Soup" ["2 onions", "3 carrots"]
        (Except.ok "irrelevant") = (false, none)
    ∧ getSustainableSuggestion6 "Vegetable Soup" ["2 onions", "3 carrots"]
        (Except.ok "irrelevant") = (false, none) :=
  ⟨(c10_suggestion_gate "Vegetable Soup" ["2 onions", "3 carrots"]
      (Except.ok "irrelevant")).1 (by decide),
   (c10_suggestion_gate "Vegetable Soup" ["2 onions", "3 carrots"]
      (Except.ok "irrelevant")).2.2.2.1 (by decide)⟩
